import Mathlib

/-!
Shallow embedding of the PC Hardware Analyzer core (collectors and health
scorer) and proofs about the claims of its specification.

Python floats are modelled as rationals (`ℚ`), Python's `Optional` as
`Option`, Python truthiness of a numeric value `v` as `v ≠ 0` and of an
optional as `≠ none` plus the inner truthiness.  Readings obtained from the
operating-system metrics provider (psutil, WMI, sysfs files, external tools)
are passed in explicitly as environment structures, so each `collect`
function is a pure function of the environment, mirroring the source line by
line.
-/

/-- Python's built-in `round` to an integer: round half to even. -/
def pyRound (q : ℚ) : ℤ :=
  let f : ℤ := ⌊q⌋
  let r : ℚ := q - f
  if r < 1/2 then f
  else if 1/2 < r then f + 1
  else if f % 2 = 0 then f else f + 1

/-- Python's `round(x, n)` for `n` decimal places. -/
def pyRoundTo (q : ℚ) (n : ℕ) : ℚ :=
  (pyRound (q * 10 ^ n) : ℚ) / 10 ^ n

/-- Python's substring test `pat in s`, via `String.splitOn`. -/
def strContains (s pat : String) : Bool :=
  (s.splitOn pat).length ≥ 2

/-- Truthiness-guarded comparison `v and v > c` for an optional numeric
field, as Python evaluates `data.temperature and data.temperature > c`. -/
def optTruthyGT (v : Option ℚ) (c : ℚ) : Bool :=
  match v with
  | none => false
  | some t => decide (t ≠ 0) && decide (c < t)

/-- Python `x or 1` for an optional integer reading (`None` and `0` are
falsy), as used for `psutil.cpu_count(...) or 1`. -/
def orOne (v : Option ℕ) : ℕ :=
  match v with
  | none => 1
  | some 0 => 1
  | some n => n

namespace config

/-- Thresholds from `src/config.py`. -/
def TEMP_CPU_WARNING : ℚ := 75
def TEMP_CPU_CRITICAL : ℚ := 90
def TEMP_DISK_WARNING : ℚ := 50
def TEMP_DISK_CRITICAL : ℚ := 60
def RAM_USAGE_WARNING : ℚ := 75
def RAM_USAGE_CRITICAL : ℚ := 90
def DISK_USAGE_WARNING : ℚ := 80
def DISK_USAGE_CRITICAL : ℚ := 95
def BATTERY_HEALTH_GOOD : ℚ := 80
def BATTERY_HEALTH_FAIR : ℚ := 60

end config

/-- `CPUData` dataclass of `src/analyzers/cpu_analyzer.py`. -/
structure CPUData where
  brand : String := "Unknown"
  architecture : String := "Unknown"
  bits : ℕ := 64
  hz_actual : String := "N/A"
  hz_advertised : String := "N/A"
  physical_cores : ℕ := 0
  logical_cores : ℕ := 0
  l2_cache_size : Option ℤ := none
  l3_cache_size : Option ℤ := none
  usage_percent : ℚ := 0
  per_core_usage : List ℚ := []
  temperature : Option ℚ := none
  frequency_current : ℚ := 0
  frequency_min : ℚ := 0
  frequency_max : ℚ := 0
  ctx_switches : ℕ := 0
  interrupts : ℕ := 0
  is_throttling : Bool := false
deriving Repr, DecidableEq

namespace CPUAnalyzer

/-- `CPUAnalyzer._detect_throttling`: both frequencies truthy (nonzero),
ratio below 0.75, and temperature truthy and above 85 °C. -/
def detect_throttling (data : CPUData) : Bool :=
  if data.frequency_current ≠ 0 ∧ data.frequency_max ≠ 0 then
    decide (data.frequency_current / data.frequency_max < 3/4)
      && optTruthyGT data.temperature 85
  else false

/-- One entry of `psutil.sensors_temperatures()`: a named sensor group with
the `.current` reading of each sensor in it. -/
abbrev SensorGroups := List (String × List ℚ)

/-- Dictionary lookup on the sensor groups. -/
def lookupGroup (temps : SensorGroups) (key : String) : Option (List ℚ) :=
  (temps.find? (fun p => p.1 = key)).map (fun p => p.2)

/-- The priority loop of `CPUAnalyzer._get_cpu_temp`: first key present with
a nonempty sensor list wins; its first reading is rounded to 1 decimal. -/
def firstSensor : List String → SensorGroups → Option ℚ
  | [], _ => none
  | k :: ks, temps =>
    match lookupGroup temps k with
    | some (t :: _) => some (pyRoundTo t 1)
    | _ => firstSensor ks temps

/-- `CPUAnalyzer._get_cpu_temp`.  `none` for the whole sensor dictionary
models `psutil.sensors_temperatures()` raising (caught) or being absent. -/
def get_cpu_temp (sensors : Option SensorGroups) : Option ℚ :=
  match sensors with
  | none => none
  | some temps =>
    if temps.isEmpty then none
    else firstSensor ["coretemp", "cpu_thermal", "k10temp", "acpitz"] temps

/-- Readings the CPU collector obtains from `cpuinfo`, `psutil` and
`platform`; `none` models an absent dictionary key or a `None` return. -/
structure CpuEnv where
  brand_raw : Option String := none
  platform_processor : String := ""
  arch : Option String := none
  platform_machine : String := ""
  bits : Option ℕ := none
  hz_actual_friendly : Option String := none
  hz_advertised_friendly : Option String := none
  l2_cache_size : Option ℤ := none
  l3_cache_size : Option ℤ := none
  cpu_count_physical : Option ℕ := none
  cpu_count_logical : Option ℕ := none
  cpu_percent : ℚ := 0
  cpu_percent_percpu : List ℚ := []
  cpu_freq : Option (ℚ × ℚ × ℚ) := none
  sensors : Option SensorGroups := none
  ctx_switches : ℕ := 0
  interrupts : ℕ := 0

/-- `CPUAnalyzer.collect`, as a pure function of the provider readings.
Field assignments follow the source order; `is_throttling` is derived from
the record after frequencies and temperature have been set. -/
def collect (env : CpuEnv) : CPUData :=
  let freqs : ℚ × ℚ × ℚ :=
    match env.cpu_freq with
    | none => (0, 0, 0)
    | some (c, mn, mx) => (pyRoundTo c 2, pyRoundTo mn 2, pyRoundTo mx 2)
  let temp : Option ℚ := get_cpu_temp env.sensors
  let data : CPUData :=
    { brand := env.brand_raw.getD env.platform_processor
      architecture := env.arch.getD env.platform_machine
      bits := env.bits.getD 64
      hz_actual := env.hz_actual_friendly.getD "N/A"
      hz_advertised := env.hz_advertised_friendly.getD "N/A"
      l2_cache_size := env.l2_cache_size
      l3_cache_size := env.l3_cache_size
      physical_cores := orOne env.cpu_count_physical
      logical_cores := orOne env.cpu_count_logical
      usage_percent := env.cpu_percent
      per_core_usage := env.cpu_percent_percpu
      frequency_current := freqs.1
      frequency_min := freqs.2.1
      frequency_max := freqs.2.2
      temperature := temp
      ctx_switches := env.ctx_switches
      interrupts := env.interrupts }
  { data with is_throttling := detect_throttling data }

end CPUAnalyzer

/-- `MemoryData` dataclass of `src/analyzers/memory_analyzer.py` (the health
scorer reads only `usage_percent`). -/
structure MemoryData where
  total_gb : ℚ := 0
  available_gb : ℚ := 0
  used_gb : ℚ := 0
  free_gb : ℚ := 0
  usage_percent : ℚ := 0
  swap_total_gb : ℚ := 0
  swap_used_gb : ℚ := 0
  swap_percent : ℚ := 0
  memory_type : String := "Unknown"
  speed_mhz : Option ℤ := none
  slots_used : ℕ := 0
  slots_total : ℕ := 0
  channel_mode : String := "Unknown"
deriving Repr, DecidableEq

/-- `GPUData` dataclass of `src/analyzers/gpu_analyzer.py`; the default
record is the sentinel returned when every tier fails. -/
structure GPUData where
  name : String := "Not Available"
  index : ℕ := 0
  vram_total_mb : ℚ := 0
  vram_used_mb : ℚ := 0
  vram_free_mb : ℚ := 0
  gpu_utilization : ℚ := 0
  memory_utilization : ℚ := 0
  temperature : Option ℚ := none
  fan_speed : Option ℚ := none
  power_draw : Option ℚ := none
  power_limit : Option ℚ := none
  driver_version : String := "N/A"
  compute_capability : String := "N/A"
deriving Repr, DecidableEq

namespace GPUAnalyzer

/-- The results of the three fallback tiers of `GPUAnalyzer.collect`:
`_try_gputil`, `_try_nvidia_smi`, `_try_platform_tools`.  Each returns the
empty list on any failure (the source catches every exception), so the lists
are the complete observable behaviour of the tiers. -/
structure GpuEnv where
  gputil : List GPUData := []
  nvidia_smi : List GPUData := []
  platform_tools : List GPUData := []

/-- `GPUAnalyzer.collect`: first nonempty tier wins; all empty yields the
single sentinel `GPUData()`. -/
def collect (env : GpuEnv) : List GPUData :=
  if env.gputil ≠ [] then env.gputil
  else if env.nvidia_smi ≠ [] then env.nvidia_smi
  else if env.platform_tools ≠ [] then env.platform_tools
  else [{}]

end GPUAnalyzer

/-- `BatteryData` dataclass of `src/analyzers/battery_analyzer.py`. -/
structure BatteryData where
  present : Bool := false
  percent : ℚ := 0
  plugged_in : Bool := false
  time_remaining_min : Option ℚ := none
  design_capacity_mwh : Option ℤ := none
  full_charge_capacity_mwh : Option ℤ := none
  health_percent : ℚ := 100
  charge_cycles : Option ℤ := none
  status : String := "Unknown"
deriving Repr, DecidableEq

namespace BatteryAnalyzer

/-- The `psutil.sensors_battery()` named tuple. -/
structure PsBattery where
  percent : ℚ
  power_plugged : Bool
  secsleft : ℤ
deriving Repr, DecidableEq

/-- One `Win32_Battery` WMI row; each field may be `NULL`. -/
structure WinBattery where
  DesignCapacity : Option ℤ := none
  EstimatedChargeRemaining : Option ℚ := none
deriving Repr, DecidableEq

/-- Readings the battery collector obtains from the OS.  The Linux fields
model `int(open(path).read())` of the sysfs files of the first `BAT*` glob
entry (`none` = open or parse raised); `profiler_lines` models the stdout of
`system_profiler SPPowerDataType` (`none` = the subprocess raised);
`win_batteries` models the WMI query (`none` = import or query raised). -/
structure BatteryEnv where
  psutil_battery : Option PsBattery := none
  platform : String := "Linux"
  linux_bat_paths : List String := []
  energy_full_design : Option ℤ := none
  energy_full : Option ℤ := none
  cycle_count : Option ℤ := none
  profiler_lines : Option (List String) := none
  win_batteries : Option (List WinBattery) := none

/-- `BatteryAnalyzer._linux_battery_details`.  The source wraps the whole
read sequence in one `try`: a failing read aborts the rest but keeps the
fields already assigned.  `//` is Python floor division (`Int.fdiv`). -/
def linux_battery_details (env : BatteryEnv) (data : BatteryData) : BatteryData :=
  if env.linux_bat_paths = [] then data
  else
    match env.energy_full_design with
    | none => data
    | some efd =>
      let data := { data with design_capacity_mwh := some (Int.fdiv efd 1000) }
      match env.energy_full with
      | none => data
      | some ef =>
        let data := { data with full_charge_capacity_mwh := some (Int.fdiv ef 1000) }
        let data :=
          if Int.fdiv efd 1000 ≠ 0 then
            { data with health_percent :=
                pyRoundTo (((Int.fdiv ef 1000 : ℚ) / (Int.fdiv efd 1000 : ℚ)) * 100) 1 }
          else data
        match env.cycle_count with
        | none => data
        | some cc => { data with charge_cycles := some cc }

/-- Python `s.split(":")[1]` (the part between the first and second colon),
defaulting to `""`; callers guard with a substring test so index 1 exists. -/
def afterColon (s : String) : String :=
  ((s.splitOn ":").getD 1 "").trim

/-- A small decimal parser standing for Python `float(...)` on the strings
the macOS profiler emits (optional sign, digits, optional fraction). -/
def parseDecimal (s : String) : Option ℚ :=
  let core (t : String) : Option ℚ :=
    match t.splitOn "." with
    | [a] => (a.toNat?).map (fun n => (n : ℚ))
    | [a, b] =>
      if a = "" ∧ b = "" then none
      else
        let ai : Option ℕ := if a = "" then some 0 else a.toNat?
        let bi : Option ℕ := if b = "" then some 0 else b.toNat?
        match ai, bi with
        | some x, some y => some ((x : ℚ) + (y : ℚ) / (10 : ℚ) ^ b.length)
        | _, _ => none
    | _ => none
  if s.startsWith "-" then (core (s.drop 1)).map (fun q => -q)
  else core s

/-- Python `int(...)` on a trimmed string. -/
def parseInt (s : String) : Option ℤ := s.toInt?

/-- The line loop of `BatteryAnalyzer._macos_battery_details`.  A parse
failure raises `ValueError`, caught by the surrounding `try`: the remaining
lines are abandoned and the fields assigned so far are kept. -/
def macos_loop : List String → BatteryData → BatteryData
  | [], data => data
  | line :: rest, data =>
    if strContains line "Cycle Count:" then
      match parseInt (afterColon line) with
      | none => data
      | some v => macos_loop rest { data with charge_cycles := some v }
    else if strContains line "Maximum Capacity:" then
      match parseDecimal ((afterColon line).replace "%" "") with
      | none => data
      | some v => macos_loop rest { data with health_percent := v }
    else macos_loop rest data

/-- `BatteryAnalyzer._macos_battery_details`. -/
def macos_battery_details (env : BatteryEnv) (data : BatteryData) : BatteryData :=
  match env.profiler_lines with
  | none => data
  | some lines => macos_loop lines data

/-- The loop body of `BatteryAnalyzer._windows_battery_details`: every
returned WMI row overwrites both fields, `None` values coerced to `0` by
`or 0`. -/
def winRowAssign (d : BatteryData) (b : WinBattery) : BatteryData :=
  { d with
      design_capacity_mwh := some (b.DesignCapacity.getD 0)
      health_percent := pyRoundTo (b.EstimatedChargeRemaining.getD 0) 1 }

/-- `BatteryAnalyzer._windows_battery_details`. -/
def windows_battery_details (env : BatteryEnv) (data : BatteryData) : BatteryData :=
  match env.win_batteries with
  | none => data
  | some rows => rows.foldl winRowAssign data

/-- `BatteryAnalyzer.collect`. -/
def collect (env : BatteryEnv) : BatteryData :=
  match env.psutil_battery with
  | none => { present := false }
  | some battery =>
    let data : BatteryData :=
      { present := true
        percent := pyRoundTo battery.percent 1
        plugged_in := battery.power_plugged
        time_remaining_min :=
          if battery.secsleft ≠ 0 ∧ battery.secsleft > 0 then
            some (pyRoundTo ((battery.secsleft : ℚ) / 60) 1)
          else none
        status := if battery.power_plugged then "Charging" else "Discharging" }
    if env.platform = "Linux" then linux_battery_details env data
    else if env.platform = "Darwin" then macos_battery_details env data
    else if env.platform = "Windows" then windows_battery_details env data
    else data

end BatteryAnalyzer

/-- `PartitionData` dataclass of `src/analyzers/storage_analyzer.py`. -/
structure PartitionData where
  device : String := ""
  mountpoint : String := ""
  fstype : String := ""
  total_gb : ℚ := 0
  used_gb : ℚ := 0
  free_gb : ℚ := 0
  usage_percent : ℚ := 0
deriving Repr, DecidableEq

/-- `DiskData` dataclass of `src/analyzers/storage_analyzer.py`. -/
structure DiskData where
  name : String := ""
  model : String := "Unknown"
  serial : String := "Unknown"
  disk_type : String := "Unknown"
  size_gb : ℚ := 0
  partitions : List PartitionData := []
  read_bytes : ℕ := 0
  write_bytes : ℕ := 0
  smart_status : String := "Unknown"
  smart_temperature : Option ℚ := none
deriving Repr, DecidableEq

namespace StorageAnalyzer

/-- The `psutil.disk_usage` result for one mountpoint. -/
structure SDiskUsage where
  total : ℕ
  used : ℕ
  free : ℕ
  percent : ℚ
deriving Repr, DecidableEq

/-- One `psutil.disk_partitions` entry together with the outcome of its
usage query: `none` models `disk_usage` raising `PermissionError`/`OSError`
(the partition is then skipped by `collect`). -/
structure PartEntry where
  device : String
  mountpoint : String := ""
  fstype : String := ""
  usage : Option SDiskUsage := none
deriving Repr, DecidableEq

/-- One per-disk `psutil.disk_io_counters` entry. -/
structure IoCountersEntry where
  read_bytes : ℕ := 0
  write_bytes : ℕ := 0
deriving Repr, DecidableEq

/-- Readings the storage collector obtains from the OS.  `_detect_disk_type`
and `_get_smart_data` probe platform files and external tools; their results
are abstracted as oracles keyed by the base device name (status string and
optional SMART temperature). -/
structure StorageEnv where
  platform : String := "Linux"
  partitions : List PartEntry := []
  io_counters : Option (List (String × IoCountersEntry)) := none
  disk_type : String → String := fun _ => "Unknown"
  smart : String → String × Option ℚ := fun _ => ("Unknown", none)

/-- `StorageAnalyzer._get_base_device`: Windows keeps the drive-letter
prefix, Linux the regex match `(/dev/[a-z]+)` anchored at the start, macOS
everything before the last `s`. -/
def get_base_device (platform : String) (device : String) : String :=
  if platform = "Windows" then device.take 2
  else if platform = "Linux" then
    if device.startsWith "/dev/" then
      let letters := (device.drop 5).takeWhile (fun c => c.isLower)
      if letters = "" then device else "/dev/" ++ letters
    else device
  else if platform = "Darwin" then
    let parts := device.splitOn "s"
    if parts.length ≥ 2 then String.intercalate "s" parts.dropLast else device
  else device

/-- Insert a partition under its base-device key, preserving the insertion
order of a Python dict: existing keys keep their position and append, new
keys go to the end. -/
def addPart (m : List (String × List PartitionData)) (base : String)
    (p : PartitionData) : List (String × List PartitionData) :=
  if m.any (fun e => e.1 = base) then
    m.map (fun e => if e.1 = base then (e.1, e.2 ++ [p]) else e)
  else m ++ [(base, [p])]

/-- The `PartitionData` built from one successful usage query (byte counts
converted to GB and rounded to 2 decimals). -/
def mkPartData (part : PartEntry) (usage : SDiskUsage) : PartitionData :=
  { device := part.device
    mountpoint := part.mountpoint
    fstype := part.fstype
    total_gb := pyRoundTo ((usage.total : ℚ) / 1024 ^ 3) 2
    used_gb := pyRoundTo ((usage.used : ℚ) / 1024 ^ 3) 2
    free_gb := pyRoundTo ((usage.free : ℚ) / 1024 ^ 3) 2
    usage_percent := usage.percent }

/-- One iteration of the grouping loop of `StorageAnalyzer.collect`: a
partition whose usage query failed is skipped (`continue`); otherwise it is
converted and grouped under its base device. -/
def groupStep (platform : String) (m : List (String × List PartitionData))
    (part : PartEntry) : List (String × List PartitionData) :=
  match part.usage with
  | none => m
  | some usage => addPart m (get_base_device platform part.device) (mkPartData part usage)

/-- The grouping loop of `StorageAnalyzer.collect`. -/
def group_partitions (platform : String) (parts : List PartEntry) :
    List (String × List PartitionData) :=
  parts.foldl (groupStep platform) []

/-- The enrichment loop of `StorageAnalyzer.collect` for one grouped disk:
size is the rounded sum of partition totals, type and SMART come from the
platform probes, and the I/O counters of the first key related to the name
by substring containment are attached. -/
def enrich_disk (env : StorageEnv) (e : String × List PartitionData) : DiskData :=
  let name := e.1
  let size := pyRoundTo (e.2.foldl (fun a p => a + p.total_gb) 0) 2
  let sm := env.smart name
  let io : Option (String × IoCountersEntry) :=
    match env.io_counters with
    | none => none
    | some ios => ios.find? (fun p => strContains name p.1 || strContains p.1 name)
  { name := name
    size_gb := size
    disk_type := env.disk_type name
    partitions := e.2
    smart_status := sm.1
    smart_temperature := sm.2
    read_bytes := (io.map (fun p => p.2.read_bytes)).getD 0
    write_bytes := (io.map (fun p => p.2.write_bytes)).getD 0 }

/-- `StorageAnalyzer.collect`. -/
def collect (env : StorageEnv) : List DiskData :=
  (group_partitions env.platform env.partitions).map (enrich_disk env)

end StorageAnalyzer

/-- `InterfaceData` dataclass of `src/analyzers/network_analyzer.py`. -/
structure InterfaceData where
  name : String := ""
  mac_address : String := "N/A"
  ipv4_address : String := "N/A"
  bytes_sent : ℤ := 0
  bytes_recv : ℤ := 0
  speed_mbps : Option ℤ := none
  is_up : Bool := false
  upload_speed_kbps : ℚ := 0
  download_speed_kbps : ℚ := 0
deriving Repr, DecidableEq

/-- `NetworkData` dataclass of `src/analyzers/network_analyzer.py`. -/
structure NetworkData where
  interfaces : List InterfaceData := []
deriving Repr, DecidableEq

namespace NetworkAnalyzer

/-- One address of `psutil.net_if_addrs()` (family name, numeric family
value, address string). -/
structure AddrEntry where
  family_name : String := ""
  family_value : ℤ := 0
  address : String := ""
deriving Repr, DecidableEq

/-- One `psutil.net_if_stats()` entry. -/
structure NicStats where
  isup : Bool := false
  speed : ℤ := 0
deriving Repr, DecidableEq

/-- One `psutil.net_io_counters(pernic=True)` entry. -/
structure NicIo where
  bytes_sent : ℤ := 0
  bytes_recv : ℤ := 0
deriving Repr, DecidableEq

/-- Readings the network collector obtains from psutil: the address map, the
stats map, and the per-interface byte counters sampled before and after the
fixed 1-second sleep.  `elapsed_seconds` is the wall time that actually
passed between the two counter samples (at least the 1-second sleep); the
source never reads it, it is part of the model only so that statements about
"per elapsed second" rates can be expressed. -/
structure NetEnv where
  addrs : List (String × List AddrEntry) := []
  stats : List (String × NicStats) := []
  io_before : List (String × NicIo) := []
  io_after : List (String × NicIo) := []
  elapsed_seconds : ℚ := 1

/-- Dictionary lookup on an association list. -/
def lookupNic {α : Type} (m : List (String × α)) (k : String) : Option α :=
  (m.find? (fun p => p.1 = k)).map (fun p => p.2)

/-- The MAC/IPv4 resolution step of the address loop: link-layer addresses
set the MAC, `AF_INET` addresses set the IPv4 (a later match overwrites an
earlier one, as in the source loop). -/
def addrAssign (i : InterfaceData) (addr : AddrEntry) : InterfaceData :=
  if addr.family_name = "AF_LINK" ∨ addr.family_value = -1 then
    { i with mac_address := addr.address }
  else if addr.family_name = "AF_INET" then
    { i with ipv4_address := addr.address }
  else i

/-- The body of the interface loop of `NetworkAnalyzer.collect` for one
`net_if_addrs` entry. -/
def build_iface (env : NetEnv) (e : String × List AddrEntry) : InterfaceData :=
  let iface : InterfaceData := { name := e.1 }
  let iface := e.2.foldl addrAssign iface
  let iface :=
    match lookupNic env.stats e.1 with
    | none => iface
    | some st =>
      { iface with
          is_up := st.isup
          speed_mbps := if st.speed > 0 then some st.speed else none }
  let iface :=
    match lookupNic env.io_after e.1 with
    | none => iface
    | some ioa => { iface with bytes_sent := ioa.bytes_sent, bytes_recv := ioa.bytes_recv }
  match lookupNic env.io_before e.1, lookupNic env.io_after e.1 with
  | some iob, some ioa =>
    { iface with
        upload_speed_kbps := pyRoundTo ((ioa.bytes_sent - iob.bytes_sent : ℚ) / 1024) 2
        download_speed_kbps := pyRoundTo ((ioa.bytes_recv - iob.bytes_recv : ℚ) / 1024) 2 }
  | _, _ => iface

/-- `NetworkAnalyzer.collect`. -/
def collect (env : NetEnv) : NetworkData :=
  { interfaces := env.addrs.map (build_iface env) }

/-- Throughput as the specification words it: the byte-counter delta divided
by the elapsed wall time between the two samples, converted to KB. -/
def spec_throughput_kbps (delta : ℤ) (elapsed : ℚ) : ℚ :=
  ((delta : ℚ) / elapsed) / 1024

end NetworkAnalyzer

/-- How a Python f-string renders an `Optional[float]` attribute: the number
itself when set, `None` otherwise. -/
def pyShowOpt (v : Option ℚ) : String :=
  match v with
  | none => "None"
  | some t => toString t

/-- One recommendation dict appended by `compute_health_score` in
`src/main.py`: a `level` and a `message`. -/
structure Recommendation where
  level : String
  message : String
deriving Repr, DecidableEq

/-- The entries of the `data` dict that `compute_health_score` reads.
`data.get("cpu")` on a missing or `None` entry yields `none`; a dataclass
instance is always truthy, so `if cpu:` is `≠ none`.  `data.get("storage",
[])` yields the list. -/
structure ScoreInput where
  cpu : Option CPUData := none
  memory : Option MemoryData := none
  storage : List DiskData := []
  battery : Option BatteryData := none
deriving Repr, DecidableEq

namespace HealthScore

/-- Running state of the scorer: current score and the recommendations
accumulated so far, in append order. -/
abbrev Acc := ℤ × List Recommendation

/-- The critical CPU-temperature recommendation. -/
def critTempRec (t : Option ℚ) : Recommendation :=
  ⟨"critical", "CPU temperature is dangerously high (" ++ pyShowOpt t ++
    "°C). Check cooling immediately."⟩

/-- The warning CPU-temperature recommendation. -/
def warnTempRec (t : Option ℚ) : Recommendation :=
  ⟨"warning", "CPU temperature is elevated (" ++ pyShowOpt t ++
    "°C). Consider improving airflow."⟩

/-- The critical throttling recommendation. -/
def throttleRec : Recommendation :=
  ⟨"critical", "CPU is thermal throttling — performance is being reduced to prevent damage."⟩

/-- The CPU block of `compute_health_score` (temperature `elif` pair, then
the independent throttling check). -/
def cpu_checks (cpu : Option CPUData) (acc : Acc) : Acc :=
  match cpu with
  | none => acc
  | some cpu =>
    let acc :=
      if optTruthyGT cpu.temperature config.TEMP_CPU_CRITICAL then
        (acc.1 - 20, acc.2 ++ [critTempRec cpu.temperature])
      else if optTruthyGT cpu.temperature config.TEMP_CPU_WARNING then
        (acc.1 - 10, acc.2 ++ [warnTempRec cpu.temperature])
      else acc
    if cpu.is_throttling then
      (acc.1 - 15, acc.2 ++ [throttleRec])
    else acc

/-- The critical RAM recommendation. -/
def critRamRec (u : ℚ) : Recommendation :=
  ⟨"critical", "RAM usage is critically high (" ++ toString u ++
    "%). Upgrade RAM or close applications."⟩

/-- The warning RAM recommendation. -/
def warnRamRec (u : ℚ) : Recommendation :=
  ⟨"warning", "RAM usage is high (" ++ toString u ++ "%). Consider adding more RAM."⟩

/-- The RAM block of `compute_health_score` (`elif` pair). -/
def ram_checks (memory : Option MemoryData) (acc : Acc) : Acc :=
  match memory with
  | none => acc
  | some memory =>
    if memory.usage_percent > config.RAM_USAGE_CRITICAL then
      (acc.1 - 15, acc.2 ++ [critRamRec memory.usage_percent])
    else if memory.usage_percent > config.RAM_USAGE_WARNING then
      (acc.1 - 8, acc.2 ++ [warnRamRec memory.usage_percent])
    else acc

/-- The critical nearly-full-partition recommendation. -/
def fullPartRec (mountpoint : String) (u : ℚ) : Recommendation :=
  ⟨"critical", "Partition " ++ mountpoint ++ " is nearly full (" ++
    toString u ++ "%). Free up space."⟩

/-- The per-partition inner loop of the storage block. -/
def partition_checks (disk_name : String) (parts : List PartitionData) (acc : Acc) : Acc :=
  let _ := disk_name
  parts.foldl
    (fun acc part =>
      if part.usage_percent > config.DISK_USAGE_CRITICAL then
        (acc.1 - 10, acc.2 ++ [fullPartRec part.mountpoint part.usage_percent])
      else acc)
    acc

/-- The critical SMART-failure recommendation. -/
def smartFailRec (name : String) : Recommendation :=
  ⟨"critical", "Drive " ++ name ++ " has FAILED S.M.A.R.T. status. Back up data immediately!"⟩

/-- The warning hot-disk recommendation. -/
def hotDiskRec (name : String) (t : Option ℚ) : Recommendation :=
  ⟨"warning", "Drive " ++ name ++ " is running hot (" ++ pyShowOpt t ++
    "°C). Check case airflow."⟩

/-- The storage block of `compute_health_score`: per disk a SMART-failure
check, a SMART-temperature check, then the partition loop. -/
def storage_checks (storage : List DiskData) (acc : Acc) : Acc :=
  storage.foldl
    (fun acc disk =>
      let acc :=
        if disk.smart_status = "FAILED" then
          (acc.1 - 30, acc.2 ++ [smartFailRec disk.name])
        else acc
      let acc :=
        if optTruthyGT disk.smart_temperature config.TEMP_DISK_WARNING then
          (acc.1 - 10, acc.2 ++ [hotDiskRec disk.name disk.smart_temperature])
        else acc
      partition_checks disk.name disk.partitions acc)
    acc

/-- The warning poor-battery recommendation (`:.0f` formats the value
rounded to zero decimals). -/
def batteryPoorRec (h : ℚ) : Recommendation :=
  ⟨"warning", "Battery health is poor (" ++ toString (pyRound h) ++
    "%). Consider replacing the battery."⟩

/-- The battery block of `compute_health_score`: `if battery and
battery.present:` then the health comparison (`:.0f` formats the value
rounded to zero decimals). -/
def battery_checks (battery : Option BatteryData) (acc : Acc) : Acc :=
  match battery with
  | none => acc
  | some battery =>
    if battery.present then
      if battery.health_percent < config.BATTERY_HEALTH_FAIR then
        (acc.1 - 15, acc.2 ++ [batteryPoorRec battery.health_percent])
      else acc
    else acc

/-- The recommendation appended when no condition fired. -/
def goodRec : Recommendation :=
  ⟨"good", "All systems healthy! No issues detected."⟩

end HealthScore

/-- `compute_health_score` of `src/main.py`: start at 100, apply the CPU,
RAM, storage and battery deduction blocks in order, clamp the score to
`[0, 100]`, and fall back to the single `good` recommendation when the list
is still empty. -/
def compute_health_score (data : ScoreInput) : ℤ × List Recommendation :=
  let acc : HealthScore.Acc := (100, [])
  let acc := HealthScore.cpu_checks data.cpu acc
  let acc := HealthScore.ram_checks data.memory acc
  let acc := HealthScore.storage_checks data.storage acc
  let acc := HealthScore.battery_checks data.battery acc
  (max 0 (min 100 acc.1),
    if acc.2.isEmpty then [HealthScore.goodRec] else acc.2)

/-! ## Claim C1: the health scorer is deterministic, pure, and bounded -/

/-- Helper: clamping with `max 0 (min 100 _)` lands in `[0, 100]`. -/
lemma clamp_mem (x : ℤ) : 0 ≤ max 0 (min 100 x) ∧ max 0 (min 100 x) ≤ 100 :=
  ⟨le_max_left 0 _, max_le (by norm_num) (min_le_left 100 x)⟩

/-- C1.  `compute_health_score` is a pure function of its input (equal
inputs give the identical score and the identical ordered recommendation
list, and the input record is never mutated — the embedding is a total
function), and the returned score lies in `[0, 100]`. -/
theorem compute_health_score_deterministic_bounded (d₁ d₂ : ScoreInput)
    (h : d₁ = d₂) :
    compute_health_score d₁ = compute_health_score d₂ ∧
    0 ≤ (compute_health_score d₁).1 ∧ (compute_health_score d₁).1 ≤ 100 := by
  subst h
  refine ⟨rfl, ?_, ?_⟩ <;>
  · unfold compute_health_score
    first
    | exact le_max_left 0 _
    | exact max_le (by norm_num) (min_le_left 100 _)

/-- Witness for C1 at a concrete input. -/
theorem compute_health_score_deterministic_bounded_witness :
    compute_health_score {} = compute_health_score {} ∧
    0 ≤ (compute_health_score {}).1 ∧ (compute_health_score {}).1 ≤ 100 :=
  compute_health_score_deterministic_bounded {} {} rfl

/-! ## Claim C2: the critical-temperature plus throttling scenario -/

/-- Provider readings for the C2 scenario: CPU temperature 95 °C, current
frequency 1000 MHz against a 2000 MHz maximum (ratio 0.5, both known). -/
def scenarioCpuEnv : CPUAnalyzer.CpuEnv :=
  { cpu_count_physical := some 4
    cpu_count_logical := some 8
    cpu_percent := 20
    cpu_freq := some (1000, 800, 2000)
    sensors := some [("coretemp", [95])] }

/-- The C2 snapshot: the collected CPU record, RAM at 50 %, no disks, no
battery. -/
def scenarioInput : ScoreInput :=
  { cpu := some (CPUAnalyzer.collect scenarioCpuEnv)
    memory := some { usage_percent := 50 }
    storage := []
    battery := none }

/-- C2.  With CPU temperature 95, frequency ratio 0.5 and RAM at 50 %, the
derived throttling flag is true and the score is 65 = 100 − 20 − 15, with
exactly two recommendations: the critical temperature one, then the critical
throttling one. -/
theorem scenario_crit_temp_and_throttle :
    (CPUAnalyzer.collect scenarioCpuEnv).is_throttling = true ∧
    compute_health_score scenarioInput =
      (65, [HealthScore.critTempRec (some 95), HealthScore.throttleRec]) ∧
    (HealthScore.critTempRec (some 95)).level = "critical" ∧
    HealthScore.throttleRec.level = "critical" := by
  have hcpu : CPUAnalyzer.collect scenarioCpuEnv =
      { brand := "", architecture := "", physical_cores := 4, logical_cores := 8,
        usage_percent := 20, temperature := some 95, frequency_current := 1000,
        frequency_min := 800, frequency_max := 2000, is_throttling := true } := by
    norm_num [CPUAnalyzer.collect, scenarioCpuEnv, CPUAnalyzer.get_cpu_temp,
      CPUAnalyzer.firstSensor, CPUAnalyzer.lookupGroup, CPUAnalyzer.detect_throttling,
      optTruthyGT, orOne, pyRoundTo, pyRound]
  refine ⟨by rw [hcpu], ?_, rfl, rfl⟩
  norm_num [compute_health_score, scenarioInput, hcpu, HealthScore.cpu_checks,
    HealthScore.ram_checks, HealthScore.storage_checks, HealthScore.battery_checks,
    HealthScore.partition_checks, optTruthyGT, config.TEMP_CPU_CRITICAL,
    config.RAM_USAGE_CRITICAL, config.RAM_USAGE_WARNING]

/-! ## Claim C3: the throttling derivation -/

/-- C3.  For every CPU record, the throttling flag is true iff the current
and maximum frequencies are known (nonzero), their ratio is below 0.75, and
the temperature is known and above 85 °C; consequently a missing current or
maximum frequency or a missing temperature forces the flag to false. -/
theorem detect_throttling_spec (d : CPUData) :
    (CPUAnalyzer.detect_throttling d = true ↔
      d.frequency_current ≠ 0 ∧ d.frequency_max ≠ 0 ∧
        d.frequency_current / d.frequency_max < 3/4 ∧
        ∃ t, d.temperature = some t ∧ 85 < t) ∧
    (d.frequency_current = 0 ∨ d.frequency_max = 0 ∨ d.temperature = none →
      CPUAnalyzer.detect_throttling d = false) := by
  constructor
  · unfold CPUAnalyzer.detect_throttling optTruthyGT
    rcases htemp : d.temperature with _ | t
    · split
      · simp [htemp]
      · next hc => simp only [Bool.false_eq_true, false_iff]; tauto
    · split
      · next hc =>
        simp only [htemp, Bool.and_eq_true, decide_eq_true_eq, Option.some.injEq]
        constructor
        · rintro ⟨hr, -, ht⟩
          exact ⟨hc.1, hc.2, hr, t, rfl, ht⟩
        · rintro ⟨-, -, hr, t', ht', hgt⟩
          subst ht'
          exact ⟨hr, by linarith, hgt⟩
      · next hc => simp only [Bool.false_eq_true, false_iff]; tauto
  · intro hmiss
    rcases h : CPUAnalyzer.detect_throttling d with _ | _
    · rfl
    · exfalso
      have := (by
        unfold CPUAnalyzer.detect_throttling optTruthyGT at h
        revert h
        split
        · next hc =>
          rcases htemp : d.temperature with _ | t
          · simp
          · intro h
            rcases hmiss with h0 | h0 | h0
            · exact hc.1 h0
            · exact hc.2 h0
            · rw [htemp] at h0; cases h0
        · simp : False)
      exact this

/-- Witness for C3: a record with a missing temperature is not throttling. -/
theorem detect_throttling_spec_witness :
    CPUAnalyzer.detect_throttling
      { temperature := none, frequency_current := 1000, frequency_max := 2000 } = false :=
  (detect_throttling_spec _).2 (Or.inr (Or.inr rfl))

/-! ## Claim C4: the GPU sentinel guarantee -/

/-- C4.  For every combination of tier outcomes, the returned GPU list has
length at least one, and when every tier yields zero GPUs the result is
exactly one sentinel record, whose name is "Not Available". -/
theorem gpu_collect_sentinel (env : GPUAnalyzer.GpuEnv) :
    1 ≤ (GPUAnalyzer.collect env).length ∧
    (env.gputil = [] → env.nvidia_smi = [] → env.platform_tools = [] →
      GPUAnalyzer.collect env = [{}] ∧ ({} : GPUData).name = "Not Available") := by
  unfold GPUAnalyzer.collect
  split
  · next h1 =>
    exact ⟨List.length_pos.mpr h1, fun he _ _ => absurd he h1⟩
  · split
    · next h2 =>
      exact ⟨List.length_pos.mpr h2, fun _ he _ => absurd he h2⟩
    · split
      · next h3 =>
        exact ⟨List.length_pos.mpr h3, fun _ _ he => absurd he h3⟩
      · exact ⟨by norm_num, fun _ _ _ => ⟨rfl, rfl⟩⟩

/-- Witness for C4 with every tier empty. -/
theorem gpu_collect_sentinel_witness :
    1 ≤ (GPUAnalyzer.collect {}).length ∧
    GPUAnalyzer.collect {} = [{}] ∧ ({} : GPUData).name = "Not Available" :=
  ⟨(gpu_collect_sentinel {}).1, (gpu_collect_sentinel {}).2 rfl rfl rfl⟩

/-! ## Claim C5: CPU collector invariants (corrected) -/

/-- Provider readings with more physical than logical cores and utilization
readings above 100: the collector stores them unchanged. -/
def cpuEnvUnclamped : CPUAnalyzer.CpuEnv :=
  { cpu_count_physical := some 4
    cpu_count_logical := some 2
    cpu_percent := 150
    cpu_percent_percpu := [150] }

/-- Counterexample to C5: the collector performs no clamping and does not
enforce `logical_cores >= physical_cores` — with the provider reporting
4 physical cores, 2 logical cores and 150 % utilization, the collected
record violates both parts of the claimed invariant. -/
theorem cpu_invariants_cex :
    ¬((CPUAnalyzer.collect cpuEnvUnclamped).physical_cores ≤
        (CPUAnalyzer.collect cpuEnvUnclamped).logical_cores) ∧
    ¬((CPUAnalyzer.collect cpuEnvUnclamped).usage_percent ≤ 100) ∧
    ¬(∀ u ∈ (CPUAnalyzer.collect cpuEnvUnclamped).per_core_usage, u ≤ 100) := by
  refine ⟨?_, ?_, ?_⟩
  · show ¬(orOne (some 4) ≤ orOne (some 2))
    simp [orOne]
  · show ¬((150 : ℚ) ≤ 100)
    norm_num
  · intro h
    have := h 150 (by simp [CPUAnalyzer.collect, cpuEnvUnclamped])
    norm_num at this

/-- Helper: the `or 1` defaulting always yields at least 1. -/
lemma one_le_orOne (v : Option ℕ) : 1 ≤ orOne v := by
  rcases v with _ | (_ | n) <;> simp [orOne]

/-- C5 as amended.  The collector guarantees `physical_cores ≥ 1` and
`logical_cores ≥ 1` (a `None` or `0` core count defaults to 1 via `or 1`),
but the overall and per-core utilization readings are passed through from
the OS metrics provider unclamped, so they lie in `[0, 100]` — and
`logical_cores ≥ physical_cores` holds — only when the provider readings
already satisfy those bounds. -/
theorem cpu_collect_core_floor_passthrough (env : CPUAnalyzer.CpuEnv) :
    1 ≤ (CPUAnalyzer.collect env).physical_cores ∧
    1 ≤ (CPUAnalyzer.collect env).logical_cores ∧
    (CPUAnalyzer.collect env).usage_percent = env.cpu_percent ∧
    (CPUAnalyzer.collect env).per_core_usage = env.cpu_percent_percpu := by
  exact ⟨one_le_orOne _, one_le_orOne _, rfl, rfl⟩

/-! ## Claim C6: the scorer silently skips null domains (corrected) -/

/-- Counterexample to C6: a scorer input with null CPU and memory domains
does not fail — `compute_health_score` has no error path at all — but
returns score 100 with the single `good` recommendation, silently skipping
the absent domains. -/
theorem scorer_null_domains_cex :
    compute_health_score { cpu := none, memory := none, storage := [], battery := none } =
      (100, [HealthScore.goodRec]) := rfl

/-- C6 as amended.  A null/absent CPU or memory domain is never fatal: the
scorer silently skips that domain's checks — behaving exactly as if a
default (issue-free) record had been supplied — and still returns a
score. -/
theorem scorer_skips_null_domains (s : ScoreInput) :
    compute_health_score { s with cpu := none } =
      compute_health_score { s with cpu := some {} } ∧
    compute_health_score { s with memory := none } =
      compute_health_score { s with memory := some {} } := by
  constructor <;>
  · unfold compute_health_score
    norm_num [HealthScore.cpu_checks, HealthScore.ram_checks, optTruthyGT,
      config.TEMP_CPU_CRITICAL, config.TEMP_CPU_WARNING,
      config.RAM_USAGE_CRITICAL, config.RAM_USAGE_WARNING]

/-! ## Claim C7: battery health defaulting (corrected) -/

/-- A Windows machine whose single WMI battery row has both fields NULL:
neither the Linux capacity pair nor any inventory health field is
available. -/
def winBatteryEnvNoField : BatteryAnalyzer.BatteryEnv :=
  { psutil_battery := some { percent := 50, power_plugged := false, secsleft := -1 }
    platform := "Windows"
    win_batteries := some [{}] }

/-- Counterexample to C7: with a WMI battery row present but its
`EstimatedChargeRemaining` field unavailable, the Windows path coerces the
missing field to 0 and assigns it, so `health_percent` is 0 — not the
claimed default of 100. -/
theorem battery_health_missing_field_cex :
    (BatteryAnalyzer.collect winBatteryEnvNoField).health_percent = 0 ∧
    ((0 : ℚ) ≠ 100) := by
  have h1 : ("Windows" : String) ≠ "Linux" := by decide
  have h2 : ("Windows" : String) ≠ "Darwin" := by decide
  constructor
  · norm_num [BatteryAnalyzer.collect, winBatteryEnvNoField,
      BatteryAnalyzer.windows_battery_details, BatteryAnalyzer.winRowAssign,
      pyRoundTo, pyRound, h1, h2]
  · norm_num

/-- Helper: the macOS profiler loop never touches `health_percent` when no
line contains "Maximum Capacity:". -/
lemma macos_loop_health (lines : List String) (data : BatteryData)
    (h : ∀ l ∈ lines, strContains l "Maximum Capacity:" = false) :
    (BatteryAnalyzer.macos_loop lines data).health_percent = data.health_percent := by
  induction lines generalizing data with
  | nil => rfl
  | cons line rest ih =>
    have hline := h line (List.mem_cons_self _ _)
    have hrest : ∀ l ∈ rest, strContains l "Maximum Capacity:" = false :=
      fun l hl => h l (List.mem_cons_of_mem _ hl)
    unfold BatteryAnalyzer.macos_loop
    by_cases hc : strContains line "Cycle Count:" = true
    · rcases hv : BatteryAnalyzer.parseInt (BatteryAnalyzer.afterColon line) with _ | v <;>
        simp [hc, hv, ih _ hrest]
    · simp only [Bool.not_eq_true] at hc
      simp [hc, hline, ih _ hrest]

/-- C7 as amended.  When the snapshot reports a battery, `health_percent`
stays at the default 100 whenever the platform enrichment assigns nothing:
on Windows when the WMI query fails or returns no rows, on Linux when the
capacity pair cannot be read, on macOS when no "Maximum Capacity" line is
present.  On Windows, however, a returned battery row always overwrites
`health_percent` from its `EstimatedChargeRemaining` field — the last row
wins and an unavailable field is coerced to 0 rather than leaving the
default. -/
theorem battery_health_default_amended :
    (∀ (env : BatteryAnalyzer.BatteryEnv) (b : BatteryAnalyzer.PsBattery),
      env.psutil_battery = some b → env.platform = "Windows" →
      (env.win_batteries = none ∨ env.win_batteries = some []) →
      (BatteryAnalyzer.collect env).health_percent = 100) ∧
    (∀ (env : BatteryAnalyzer.BatteryEnv) (b : BatteryAnalyzer.PsBattery)
        (rows : List BatteryAnalyzer.WinBattery) (row : BatteryAnalyzer.WinBattery),
      env.psutil_battery = some b → env.platform = "Windows" →
      env.win_batteries = some (rows ++ [row]) →
      (BatteryAnalyzer.collect env).health_percent =
        pyRoundTo (row.EstimatedChargeRemaining.getD 0) 1) ∧
    (∀ (env : BatteryAnalyzer.BatteryEnv) (b : BatteryAnalyzer.PsBattery),
      env.psutil_battery = some b → env.platform = "Linux" →
      (env.linux_bat_paths = [] ∨ env.energy_full_design = none ∨
        env.energy_full = none) →
      (BatteryAnalyzer.collect env).health_percent = 100) ∧
    (∀ (env : BatteryAnalyzer.BatteryEnv) (b : BatteryAnalyzer.PsBattery)
        (lines : List String),
      env.psutil_battery = some b → env.platform = "Darwin" →
      env.profiler_lines = some lines →
      (∀ l ∈ lines, strContains l "Maximum Capacity:" = false) →
      (BatteryAnalyzer.collect env).health_percent = 100) := by
  refine ⟨?_, ?_, ?_, ?_⟩
  · intro env b hb hplat hrows
    rcases hrows with h | h <;>
      simp [BatteryAnalyzer.collect, hb, hplat, BatteryAnalyzer.windows_battery_details, h]
  · intro env b rows row hb hplat hrows
    simp [BatteryAnalyzer.collect, hb, hplat, BatteryAnalyzer.windows_battery_details,
      hrows, List.foldl_append, BatteryAnalyzer.winRowAssign]
  · intro env b hb hplat hmiss
    simp only [BatteryAnalyzer.collect, hb, hplat]
    norm_num [BatteryAnalyzer.linux_battery_details]
    rcases hmiss with h | h | h
    · simp [h]
    · by_cases hp : env.linux_bat_paths = [] <;> simp [hp, h]
    · by_cases hp : env.linux_bat_paths = [] <;>
        rcases hd : env.energy_full_design with _ | efd <;>
        simp [hp, hd, h]
  · intro env b lines hb hplat hlines hmax
    have hne : ("Darwin" : String) ≠ "Linux" := by decide
    simp only [BatteryAnalyzer.collect, hb, hplat]
    norm_num [BatteryAnalyzer.macos_battery_details, hlines, hne]
    rw [macos_loop_health _ _ hmax]

/-- A Windows machine where the WMI battery query itself fails. -/
def winBatteryEnvNoRows : BatteryAnalyzer.BatteryEnv :=
  { psutil_battery := some { percent := 50, power_plugged := false, secsleft := -1 }
    platform := "Windows"
    win_batteries := none }

/-- Witness for the amended C7 at a concrete environment. -/
theorem battery_health_default_amended_witness :
    (BatteryAnalyzer.collect winBatteryEnvNoRows).health_percent = 100 :=
  battery_health_default_amended.1 winBatteryEnvNoRows
    { percent := 50, power_plugged := false, secsleft := -1 } rfl rfl (Or.inl rfl)

/-! ## Claim C8: storage skip behaviour and empty disks (corrected) -/

/-- A machine with a single partition whose usage query fails. -/
def storageEnvInaccessible : StorageAnalyzer.StorageEnv :=
  { partitions :=
      [{ device := "/dev/sda1", mountpoint := "/data", fstype := "ext4", usage := none }] }

/-- Counterexample to C8: when every partition of a physical disk is
inaccessible, the disk does not appear in the returned list at all (let
alone as a disk with zero partitions) — disks are created only from
partitions whose usage query succeeded, so the result here is empty. -/
theorem storage_all_inaccessible_disk_cex :
    StorageAnalyzer.collect storageEnvInaccessible = [] := rfl

/-- Helper: a partition with a failed usage query leaves the grouping state
unchanged. -/
lemma groupStep_skip (platform : String) (m : List (String × List PartitionData))
    (p : StorageAnalyzer.PartEntry) (hp : p.usage = none) :
    StorageAnalyzer.groupStep platform m p = m := by
  simp [StorageAnalyzer.groupStep, hp]

/-- Helper: `addPart` keeps every grouped partition list nonempty. -/
lemma addPart_sndNe (m : List (String × List PartitionData)) (base : String)
    (p : PartitionData) (h : ∀ e ∈ m, e.2 ≠ []) :
    ∀ e ∈ StorageAnalyzer.addPart m base p, e.2 ≠ [] := by
  intro e he
  unfold StorageAnalyzer.addPart at he
  split at he
  · rcases List.mem_map.mp he with ⟨e', he', rfl⟩
    by_cases hb : e'.1 = base
    · simp [hb]
    · simpa [hb] using h e' he'
  · rcases List.mem_append.mp he with h1 | h1
    · exact h e h1
    · simp only [List.mem_singleton] at h1
      subst h1
      simp

/-- Helper: the grouping fold keeps every grouped partition list
nonempty. -/
lemma foldl_groupStep_sndNe (platform : String) (parts : List StorageAnalyzer.PartEntry)
    (m : List (String × List PartitionData)) (h : ∀ e ∈ m, e.2 ≠ []) :
    ∀ e ∈ parts.foldl (StorageAnalyzer.groupStep platform) m, e.2 ≠ [] := by
  induction parts generalizing m with
  | nil => exact h
  | cons part rest ih =>
    rcases hu : part.usage with _ | u
    · rw [List.foldl_cons, groupStep_skip _ _ _ hu]
      exact ih m h
    · rw [List.foldl_cons]
      have hstep : StorageAnalyzer.groupStep platform m part =
          StorageAnalyzer.addPart m
            (StorageAnalyzer.get_base_device platform part.device)
            (StorageAnalyzer.mkPartData part u) := by
        simp [StorageAnalyzer.groupStep, hu]
      rw [hstep]
      exact ih _ (addPart_sndNe _ _ _ h)

/-- Helper: skipping a failed partition anywhere in the enumeration leaves
the grouping unchanged. -/
lemma group_partitions_skip (platform : String)
    (pre post : List StorageAnalyzer.PartEntry) (p : StorageAnalyzer.PartEntry)
    (hp : p.usage = none) :
    StorageAnalyzer.group_partitions platform (pre ++ p :: post) =
      StorageAnalyzer.group_partitions platform (pre ++ post) := by
  unfold StorageAnalyzer.group_partitions
  rw [List.foldl_append, List.foldl_append, List.foldl_cons,
    groupStep_skip _ _ _ hp]

/-- C8 as amended.  Partitions whose usage query fails are skipped without
aborting the collection — removing such a partition from the enumeration
does not change the result — but a physical disk whose accessible-partition
set is empty does not appear in the returned disk list at all: disks are
discovered only through accessible partitions, so every returned disk has at
least one partition. -/
theorem storage_skip_and_disks_have_partitions :
    (∀ (env : StorageAnalyzer.StorageEnv)
        (pre post : List StorageAnalyzer.PartEntry) (p : StorageAnalyzer.PartEntry),
      p.usage = none →
      StorageAnalyzer.collect { env with partitions := pre ++ p :: post } =
        StorageAnalyzer.collect { env with partitions := pre ++ post }) ∧
    (∀ (env : StorageAnalyzer.StorageEnv) (d : DiskData),
      d ∈ StorageAnalyzer.collect env → d.partitions ≠ []) := by
  constructor
  · intro env pre post p hp
    show (StorageAnalyzer.group_partitions env.platform (pre ++ p :: post)).map
        (StorageAnalyzer.enrich_disk { env with partitions := pre ++ p :: post }) =
      (StorageAnalyzer.group_partitions env.platform (pre ++ post)).map
        (StorageAnalyzer.enrich_disk { env with partitions := pre ++ post })
    rw [group_partitions_skip _ _ _ _ hp]
    exact List.map_congr_left fun a _ => rfl
  · intro env d hd
    unfold StorageAnalyzer.collect at hd
    rcases List.mem_map.mp hd with ⟨e, he, rfl⟩
    have hne := foldl_groupStep_sndNe env.platform env.partitions []
      (by intro e' h'; cases h') e he
    simpa [StorageAnalyzer.enrich_disk] using hne

/-- Witness for the amended C8: removing a failed partition from a concrete
enumeration leaves the collection unchanged. -/
theorem storage_skip_and_disks_have_partitions_witness :
    StorageAnalyzer.collect
        { ({} : StorageAnalyzer.StorageEnv) with
            partitions := [] ++
              { device := "/dev/sdb1", usage := none } :: [] } =
      StorageAnalyzer.collect
        { ({} : StorageAnalyzer.StorageEnv) with partitions := [] ++ [] } :=
  storage_skip_and_disks_have_partitions.1 {} [] []
    { device := "/dev/sdb1", usage := none } rfl

/-! ## Claim C9: network throughput and elapsed time (corrected) -/

/-- Two counter samples 4096 sent-bytes apart where the wall time that
actually passed between them was 2 seconds. -/
def netEnvElapsed2 : NetworkAnalyzer.NetEnv :=
  { addrs := [("eth0", [])]
    io_before := [("eth0", { bytes_sent := 0, bytes_recv := 0 })]
    io_after := [("eth0", { bytes_sent := 4096, bytes_recv := 0 })]
    elapsed_seconds := 2 }

/-- Counterexample to C9: the code reports 4096/1024 = 4 KB/s regardless of
the elapsed wall time, while the delta divided by the 2-second elapsed time
is 2 KB/s — the reported value is not the delta divided by the elapsed wall
time. -/
theorem network_elapsed_cex :
    ((NetworkAnalyzer.collect netEnvElapsed2).interfaces.map
        (fun i => i.upload_speed_kbps)) = [4] ∧
    pyRoundTo
      (NetworkAnalyzer.spec_throughput_kbps 4096 netEnvElapsed2.elapsed_seconds) 2 = 2 ∧
    ((4 : ℚ) ≠ 2) := by
  refine ⟨?_, ?_, by norm_num⟩
  · norm_num [NetworkAnalyzer.collect, netEnvElapsed2, NetworkAnalyzer.build_iface,
      NetworkAnalyzer.lookupNic, pyRoundTo, pyRound]
  · norm_num [NetworkAnalyzer.spec_throughput_kbps, netEnvElapsed2, pyRoundTo, pyRound]

/-- Helper: the address-resolution step never changes the interface name. -/
lemma addrAssign_name (i : InterfaceData) (addr : NetworkAnalyzer.AddrEntry) :
    (NetworkAnalyzer.addrAssign i addr).name = i.name := by
  unfold NetworkAnalyzer.addrAssign
  split
  · rfl
  · split <;> rfl

/-- Helper: the address loop never changes the interface name. -/
lemma foldl_addrAssign_name (l : List NetworkAnalyzer.AddrEntry) (i : InterfaceData) :
    (l.foldl NetworkAnalyzer.addrAssign i).name = i.name := by
  induction l generalizing i with
  | nil => rfl
  | cons a rest ih => rw [List.foldl_cons, ih, addrAssign_name]

/-- Helper: the interface built from an address entry carries that entry's
name. -/
lemma build_iface_name (env : NetworkAnalyzer.NetEnv)
    (e : String × List NetworkAnalyzer.AddrEntry) :
    (NetworkAnalyzer.build_iface env e).name = e.1 := by
  unfold NetworkAnalyzer.build_iface
  rcases hs : NetworkAnalyzer.lookupNic env.stats e.1 with _ | st <;>
  rcases hb : NetworkAnalyzer.lookupNic env.io_before e.1 with _ | iob <;>
  rcases ha : NetworkAnalyzer.lookupNic env.io_after e.1 with _ | ioa <;>
  simp [hs, hb, ha, foldl_addrAssign_name]

/-- Helper: when both counter samples contain the interface, the reported
speeds are the deltas divided by 1024. -/
lemma build_iface_speeds (env : NetworkAnalyzer.NetEnv)
    (e : String × List NetworkAnalyzer.AddrEntry)
    (iob ioa : NetworkAnalyzer.NicIo)
    (hb : NetworkAnalyzer.lookupNic env.io_before e.1 = some iob)
    (ha : NetworkAnalyzer.lookupNic env.io_after e.1 = some ioa) :
    (NetworkAnalyzer.build_iface env e).upload_speed_kbps =
      pyRoundTo ((ioa.bytes_sent - iob.bytes_sent : ℚ) / 1024) 2 ∧
    (NetworkAnalyzer.build_iface env e).download_speed_kbps =
      pyRoundTo ((ioa.bytes_recv - iob.bytes_recv : ℚ) / 1024) 2 := by
  unfold NetworkAnalyzer.build_iface
  rcases hs : NetworkAnalyzer.lookupNic env.stats e.1 with _ | st <;>
    simp [hs, hb, ha]

/-- C9 as amended.  For every interface present in both counter samples, the
reported upload and download throughput equal the byte-counter deltas
divided by 1024 (KB) — the code assumes the nominal fixed 1-second sleep as
the interval and never measures the elapsed wall time, so the reported value
equals the delta divided by the elapsed wall time only when that elapsed
time is exactly 1 second. -/
theorem network_throughput_amended (env : NetworkAnalyzer.NetEnv)
    (e : String × List NetworkAnalyzer.AddrEntry)
    (iob ioa : NetworkAnalyzer.NicIo)
    (he : e ∈ env.addrs)
    (hb : NetworkAnalyzer.lookupNic env.io_before e.1 = some iob)
    (ha : NetworkAnalyzer.lookupNic env.io_after e.1 = some ioa) :
    NetworkAnalyzer.build_iface env e ∈ (NetworkAnalyzer.collect env).interfaces ∧
    (NetworkAnalyzer.build_iface env e).upload_speed_kbps =
      pyRoundTo ((ioa.bytes_sent - iob.bytes_sent : ℚ) / 1024) 2 ∧
    (NetworkAnalyzer.build_iface env e).download_speed_kbps =
      pyRoundTo ((ioa.bytes_recv - iob.bytes_recv : ℚ) / 1024) 2 ∧
    (env.elapsed_seconds = 1 →
      (NetworkAnalyzer.build_iface env e).upload_speed_kbps =
        pyRoundTo
          (NetworkAnalyzer.spec_throughput_kbps
            (ioa.bytes_sent - iob.bytes_sent) env.elapsed_seconds) 2) := by
  obtain ⟨hup, hdown⟩ := build_iface_speeds env e iob ioa hb ha
  refine ⟨List.mem_map_of_mem _ he, hup, hdown, ?_⟩
  intro h1
  rw [hup, h1]
  congr 1
  simp only [NetworkAnalyzer.spec_throughput_kbps, div_one]
  push_cast
  ring

/-- Two counter samples exactly one second apart for the witness. -/
def netEnvElapsed1 : NetworkAnalyzer.NetEnv :=
  { addrs := [("eth0", [])]
    io_before := [("eth0", { bytes_sent := 0, bytes_recv := 0 })]
    io_after := [("eth0", { bytes_sent := 2048, bytes_recv := 1024 })]
    elapsed_seconds := 1 }

/-- Witness for the amended C9 at a concrete environment. -/
theorem network_throughput_amended_witness :
    NetworkAnalyzer.build_iface netEnvElapsed1 ("eth0", []) ∈
      (NetworkAnalyzer.collect netEnvElapsed1).interfaces ∧
    (NetworkAnalyzer.build_iface netEnvElapsed1 ("eth0", [])).upload_speed_kbps =
      pyRoundTo ((((2048 : ℤ) : ℚ) - ((0 : ℤ) : ℚ)) / 1024) 2 :=
  have h := network_throughput_amended netEnvElapsed1 ("eth0", [])
    { bytes_sent := 0, bytes_recv := 0 } { bytes_sent := 2048, bytes_recv := 1024 }
    (by simp [netEnvElapsed1]) rfl rfl
  ⟨h.1, h.2.1⟩

/-! ## Claim C10: negative speeds on counter resets (confirmed) -/

/-- Two counter samples where the second sent-byte counter is smaller than
the first (a counter reset). -/
def netEnvCounterReset : NetworkAnalyzer.NetEnv :=
  { addrs := [("eth0", [])]
    io_before := [("eth0", { bytes_sent := 10240, bytes_recv := 0 })]
    io_after := [("eth0", { bytes_sent := 0, bytes_recv := 0 })] }

/-- C10.  The collector does not guard the counter delta: with the second
sample's sent-byte counter 10240 below the first, the reported upload speed
is −10 KB/s — negative, with no clamping to zero. -/
theorem network_negative_speed :
    ((NetworkAnalyzer.collect netEnvCounterReset).interfaces.map
        (fun i => i.upload_speed_kbps)) = [-10] ∧
    ((-10 : ℚ) < 0) := by
  refine ⟨?_, by norm_num⟩
  norm_num [NetworkAnalyzer.collect, netEnvCounterReset, NetworkAnalyzer.build_iface,
    NetworkAnalyzer.lookupNic, pyRoundTo, pyRound]
